import Mathlib

/-!
Shallow embedding of the google-ads-mcp tool server (TypeScript) in Lean 4.

Numbers crossing the external-API boundary (budgets, micros amounts, metric
values) are JavaScript numbers; we model them as rationals (`ℚ`), which is
exact on every value the code manipulates symbolically.  Strings (query text,
resource names, error messages) are modelled as `String`.  Fallible handlers
are modelled with `Except String`; the raw rows returned by the external
query capability are modelled as structures of `Option` fields, matching the
optional-chaining (`row.metrics?.x`) access pattern of the source.
-/

namespace GoogleAdsMcp

/-! ## Monetary micros conversion (src/tools/campaigns.ts, shopping.ts) -/

/-- `zod` enum for `advertisingChannelType` in `createCampaignSchema`
(src/tools/campaigns.ts). -/
inductive AdvertisingChannelType
  | SEARCH | DISPLAY | SHOPPING | VIDEO | MULTI_CHANNEL
  deriving DecidableEq, Repr

/-- `zod` enum for `status` in `createCampaignSchema` (src/tools/campaigns.ts). -/
inductive CreateCampaignStatus
  | ENABLED | PAUSED
  deriving DecidableEq, Repr

/-- Validated arguments of `create_campaign` (`createCampaignSchema`,
src/tools/campaigns.ts): `name`, `budget`, `advertisingChannelType` required,
`status` defaulted. -/
structure CreateCampaignParams where
  name : String
  budget : ℚ
  advertisingChannelType : AdvertisingChannelType
  status : CreateCampaignStatus
  deriving Repr

/-- The campaign-budget create operation constructed by `createCampaign`
(src/tools/campaigns.ts lines 179-183): name `"Budget for <name>"`,
`amount_micros` = `params.budget * 1_000_000`, `delivery_method` `"STANDARD"`. -/
structure CampaignBudgetCreate where
  name : String
  amount_micros : ℚ
  delivery_method : String
  deriving Repr

/-- The budget operation built by `createCampaign` before the campaign itself
is created (src/tools/campaigns.ts lines 179-183). -/
def createCampaign_budgetOp (params : CreateCampaignParams) : CampaignBudgetCreate :=
  { name := "Budget for " ++ params.name
    amount_micros := params.budget * 1000000
    delivery_method := "STANDARD" }

/-- Validated arguments of `update_campaign` (`updateCampaignSchema`,
src/tools/campaigns.ts): `campaignId` required, the rest optional. -/
structure UpdateCampaignParams where
  campaignId : String
  name : Option String
  status : Option String
  budget : Option ℚ
  deriving Repr

/-- The `amount_micros` value `updateCampaign` sends to
`customer.campaignBudgets.update` when a budget is supplied
(src/tools/campaigns.ts line 225): `params.budget * 1_000_000`; no budget
update is issued when `budget` is absent. -/
def updateCampaign_budgetUpdateMicros (params : UpdateCampaignParams) : Option ℚ :=
  params.budget.map (fun b => b * 1000000)

/-- `microsToNumber` (src/tools/shopping.ts lines 49-52, identical copies in
src/tools/ad-groups.ts): `undefined`/`null` propagates, otherwise the value is
divided by `1_000_000`. -/
def microsToNumber (micros : Option ℚ) : Option ℚ :=
  match micros with
  | none => none
  | some m => some (m / 1000000)

/-- C1: the builder multiplies a caller-supplied decimal budget by 1,000,000
when constructing the create/update operations (12.50 yields 12500000), the
normalizer divides a returned micros value by 1,000,000 (2500000 yields 2.5),
and the conversion round-trips exactly. -/
theorem C1_micros_conversion :
    (createCampaign_budgetOp
      { name := "Demo", budget := 25/2,
        advertisingChannelType := .SEARCH, status := .PAUSED }).amount_micros
      = 12500000
    ∧ microsToNumber (some 2500000) = some (5/2)
    ∧ (∀ p : CreateCampaignParams,
        (createCampaign_budgetOp p).amount_micros = p.budget * 1000000)
    ∧ (∀ b : ℚ,
        updateCampaign_budgetUpdateMicros
          { campaignId := "1", name := none, status := none, budget := some b }
          = some (b * 1000000))
    ∧ (∀ p : CreateCampaignParams,
        microsToNumber (some (createCampaign_budgetOp p).amount_micros)
          = some p.budget) := by
  refine ⟨?_, ?_, ?_, ?_, ?_⟩
  · norm_num [createCampaign_budgetOp]
  · norm_num [microsToNumber]
  · intro p; rfl
  · intro b; rfl
  · intro p
    simp only [createCampaign_budgetOp, microsToNumber, Option.some.injEq]
    field_simp

/-! ## Campaign comparison totals (src/tools/ad-groups.ts, `getCampaignComparison`) -/

/-- JavaScript `x || 0` on a possibly-missing numeric field: `undefined`,
`null` and `0` all give `0`. -/
def orZero (x : Option ℚ) : ℚ := x.getD 0

/-- The `campaign` sub-object of a row returned by the campaign-comparison
query (fields read by `getCampaignComparison`). -/
structure RawCampaignFields where
  id : Option String
  name : Option String
  status : Option String
  advertising_channel_type : Option String
  bidding_strategy_type : Option String
  deriving Repr, DecidableEq

/-- The `campaign_budget` sub-object of a comparison row. -/
structure RawCampaignBudget where
  amount_micros : Option ℚ
  deriving Repr, DecidableEq

/-- The `metrics` sub-object of a comparison row (fields read by
`getCampaignComparison`). -/
structure RawComparisonMetrics where
  clicks : Option ℚ
  impressions : Option ℚ
  cost_micros : Option ℚ
  conversions : Option ℚ
  conversions_value : Option ℚ
  ctr : Option ℚ
  conversion_rate : Option ℚ
  search_impression_share : Option ℚ
  search_rank_lost_impression_share : Option ℚ
  search_budget_lost_impression_share : Option ℚ
  deriving Repr, DecidableEq

/-- One raw row of the campaign-comparison query response; every sub-object is
accessed with optional chaining in the source. -/
structure ComparisonRow where
  campaign : Option RawCampaignFields
  campaign_budget : Option RawCampaignBudget
  metrics : Option RawComparisonMetrics
  deriving Repr, DecidableEq

/-- Per-campaign normalized metrics produced by `getCampaignComparison`
(src/tools/ad-groups.ts lines 664-691). -/
structure ComparisonMetrics where
  clicks : ℚ
  impressions : ℚ
  cost : ℚ
  conversions : ℚ
  revenue : ℚ
  ctr : ℚ
  conversionRate : ℚ
  cpa : ℚ
  roas : ℚ
  searchImpressionShare : ℚ
  searchRankLostImpressionShare : ℚ
  searchBudgetLostImpressionShare : ℚ
  deriving Repr, DecidableEq

/-- One normalized per-campaign entry of the comparison result. -/
structure ComparisonCampaign where
  id : Option String
  name : Option String
  status : Option String
  type : Option String
  biddingStrategy : Option String
  dailyBudget : ℚ
  metrics : ComparisonMetrics
  deriving Repr, DecidableEq

/-- The per-row mapping of `getCampaignComparison` (src/tools/ad-groups.ts
lines 664-691): micros fields through `microsToNumber` then `|| 0`, plus the
locally derived `cpa` and `roas` with their zero guards. -/
def comparisonCampaignOfRow (row : ComparisonRow) : ComparisonCampaign :=
  let cost := orZero (microsToNumber (row.metrics.bind (·.cost_micros)))
  let revenue := orZero (microsToNumber (row.metrics.bind (·.conversions_value)))
  let conversions := orZero (row.metrics.bind (·.conversions))
  { id := row.campaign.bind (·.id)
    name := row.campaign.bind (·.name)
    status := row.campaign.bind (·.status)
    type := row.campaign.bind (·.advertising_channel_type)
    biddingStrategy := row.campaign.bind (·.bidding_strategy_type)
    dailyBudget := orZero (microsToNumber (row.campaign_budget.bind (·.amount_micros)))
    metrics :=
    { clicks := orZero (row.metrics.bind (·.clicks))
      impressions := orZero (row.metrics.bind (·.impressions))
      cost := cost
      conversions := conversions
      revenue := revenue
      ctr := orZero (row.metrics.bind (·.ctr))
      conversionRate := orZero (row.metrics.bind (·.conversion_rate))
      cpa := if conversions > 0 then cost / conversions else 0
      roas := if cost > 0 then revenue / cost else 0
      searchImpressionShare := orZero (row.metrics.bind (·.search_impression_share))
      searchRankLostImpressionShare :=
        orZero (row.metrics.bind (·.search_rank_lost_impression_share))
      searchBudgetLostImpressionShare :=
        orZero (row.metrics.bind (·.search_budget_lost_impression_share)) } }

/-- Accumulator of the `campaigns.reduce` call computing the totals
(src/tools/ad-groups.ts lines 694-706). -/
structure ComparisonTotalsAcc where
  clicks : ℚ
  impressions : ℚ
  cost : ℚ
  conversions : ℚ
  revenue : ℚ
  deriving Repr, DecidableEq

/-- One step of the totals `reduce` (src/tools/ad-groups.ts lines 694-699). -/
def totalsStep (acc : ComparisonTotalsAcc) (c : ComparisonCampaign) : ComparisonTotalsAcc :=
  { clicks := acc.clicks + c.metrics.clicks
    impressions := acc.impressions + c.metrics.impressions
    cost := acc.cost + c.metrics.cost
    conversions := acc.conversions + c.metrics.conversions
    revenue := acc.revenue + c.metrics.revenue }

/-- The totals object after the derived ratios are attached
(src/tools/ad-groups.ts lines 708-711). -/
structure ComparisonTotals where
  clicks : ℚ
  impressions : ℚ
  cost : ℚ
  conversions : ℚ
  revenue : ℚ
  ctr : ℚ
  conversionRate : ℚ
  cpa : ℚ
  roas : ℚ
  deriving Repr, DecidableEq

/-- The totals computation of `getCampaignComparison`
(src/tools/ad-groups.ts lines 694-711): sum the five base metrics with a
`reduce` from a zero accumulator, then recompute `ctr`, `conversionRate`,
`cpa`, `roas` from the summed values with zero guards. -/
def getCampaignComparison_totals (campaigns : List ComparisonCampaign) : ComparisonTotals :=
  let t := campaigns.foldl totalsStep ⟨0, 0, 0, 0, 0⟩
  { clicks := t.clicks
    impressions := t.impressions
    cost := t.cost
    conversions := t.conversions
    revenue := t.revenue
    ctr := if t.impressions > 0 then t.clicks / t.impressions * 100 else 0
    conversionRate := if t.clicks > 0 then t.conversions / t.clicks * 100 else 0
    cpa := if t.conversions > 0 then t.cost / t.conversions else 0
    roas := if t.cost > 0 then t.revenue / t.cost else 0 }

/-- The full result shape of `get_campaign_comparison`
(src/tools/ad-groups.ts lines 713-718). -/
structure ComparisonResult where
  dateRange : String
  sortedBy : String
  totals : ComparisonTotals
  campaigns : List ComparisonCampaign
  deriving Repr, DecidableEq

/-- The normalizer of `getCampaignComparison` applied to the rows returned by
the external query (src/tools/ad-groups.ts lines 662-718). -/
def getCampaignComparison_normalize (dateRange sortedBy : String)
    (rows : List ComparisonRow) : ComparisonResult :=
  let campaigns := rows.map comparisonCampaignOfRow
  { dateRange := dateRange
    sortedBy := sortedBy
    totals := getCampaignComparison_totals campaigns
    campaigns := campaigns }

/-- The totals `reduce` computes, in each field, the accumulator plus the sum
of that field over the processed campaigns. -/
lemma totals_foldl_spec (cs : List ComparisonCampaign) (acc : ComparisonTotalsAcc) :
    (cs.foldl totalsStep acc).clicks = acc.clicks + (cs.map (fun c => c.metrics.clicks)).sum
    ∧ (cs.foldl totalsStep acc).impressions
        = acc.impressions + (cs.map (fun c => c.metrics.impressions)).sum
    ∧ (cs.foldl totalsStep acc).cost = acc.cost + (cs.map (fun c => c.metrics.cost)).sum
    ∧ (cs.foldl totalsStep acc).conversions
        = acc.conversions + (cs.map (fun c => c.metrics.conversions)).sum
    ∧ (cs.foldl totalsStep acc).revenue
        = acc.revenue + (cs.map (fun c => c.metrics.revenue)).sum := by
  induction cs generalizing acc with
  | nil => simp
  | cons c cs ih =>
    obtain ⟨h1, h2, h3, h4, h5⟩ := ih (totalsStep acc c)
    refine ⟨?_, ?_, ?_, ?_, ?_⟩
    · rw [List.foldl_cons, h1]; simp [totalsStep]; ring
    · rw [List.foldl_cons, h2]; simp [totalsStep]; ring
    · rw [List.foldl_cons, h3]; simp [totalsStep]; ring
    · rw [List.foldl_cons, h4]; simp [totalsStep]; ring
    · rw [List.foldl_cons, h5]; simp [totalsStep]; ring

/-- C2: in the campaign-comparison result, every base total equals the sum of
that metric over the per-campaign entries, and `totals.roas` is recomputed
from the summed values: `revenue / cost` when `cost > 0` and `0` when `cost`
is `0`. -/
theorem C2_comparison_totals (dateRange sortedBy : String) (rows : List ComparisonRow) :
    let r := getCampaignComparison_normalize dateRange sortedBy rows
    r.totals.cost = (r.campaigns.map (fun c => c.metrics.cost)).sum
    ∧ r.totals.clicks = (r.campaigns.map (fun c => c.metrics.clicks)).sum
    ∧ r.totals.impressions = (r.campaigns.map (fun c => c.metrics.impressions)).sum
    ∧ r.totals.conversions = (r.campaigns.map (fun c => c.metrics.conversions)).sum
    ∧ r.totals.revenue = (r.campaigns.map (fun c => c.metrics.revenue)).sum
    ∧ (0 < r.totals.cost → r.totals.roas = r.totals.revenue / r.totals.cost)
    ∧ (r.totals.cost = 0 → r.totals.roas = 0) := by
  intro r
  obtain ⟨h1, h2, h3, h4, h5⟩ :=
    totals_foldl_spec (rows.map comparisonCampaignOfRow) ⟨0, 0, 0, 0, 0⟩
  have hc : r.campaigns = rows.map comparisonCampaignOfRow := rfl
  have htc : r.totals.cost
      = ((rows.map comparisonCampaignOfRow).foldl totalsStep ⟨0, 0, 0, 0, 0⟩).cost := rfl
  have htr : r.totals.revenue
      = ((rows.map comparisonCampaignOfRow).foldl totalsStep ⟨0, 0, 0, 0, 0⟩).revenue := rfl
  refine ⟨?_, ?_, ?_, ?_, ?_, ?_, ?_⟩
  · rw [htc, h3, hc]; ring
  · show ((rows.map comparisonCampaignOfRow).foldl totalsStep ⟨0, 0, 0, 0, 0⟩).clicks = _
    rw [h1, hc]; ring
  · show ((rows.map comparisonCampaignOfRow).foldl totalsStep ⟨0, 0, 0, 0, 0⟩).impressions = _
    rw [h2, hc]; ring
  · show ((rows.map comparisonCampaignOfRow).foldl totalsStep ⟨0, 0, 0, 0, 0⟩).conversions = _
    rw [h4, hc]; ring
  · rw [htr, h5, hc]; ring
  · intro hpos
    show (if 0 < ((rows.map comparisonCampaignOfRow).foldl totalsStep ⟨0, 0, 0, 0, 0⟩).cost
        then _ else _) = _
    rw [if_pos (htc ▸ hpos), htr, htc]
  · intro hzero
    show (if 0 < ((rows.map comparisonCampaignOfRow).foldl totalsStep ⟨0, 0, 0, 0, 0⟩).cost
        then _ else _) = _
    rw [if_neg]
    rw [htc] at hzero
    simp [hzero]

/-- Two concrete comparison rows used to instantiate C2. -/
def demoComparisonRows : List ComparisonRow :=
  [ { campaign := some
        { id := some "1", name := some "A", status := some "ENABLED",
          advertising_channel_type := some "SEARCH",
          bidding_strategy_type := some "MANUAL_CPC" }
      campaign_budget := some { amount_micros := some 10000000 }
      metrics := some
        { clicks := some 10, impressions := some 100, cost_micros := some 2000000,
          conversions := some 2, conversions_value := some 6000000,
          ctr := some (1/10), conversion_rate := some (1/5),
          search_impression_share := some (1/2),
          search_rank_lost_impression_share := some 0,
          search_budget_lost_impression_share := some 0 } }
  , { campaign := some
        { id := some "2", name := some "B", status := some "ENABLED",
          advertising_channel_type := some "SEARCH",
          bidding_strategy_type := some "MANUAL_CPC" }
      campaign_budget := some { amount_micros := some 5000000 }
      metrics := some
        { clicks := some 5, impressions := some 50, cost_micros := some 1000000,
          conversions := some 1, conversions_value := some 3000000,
          ctr := some (1/10), conversion_rate := some (1/5),
          search_impression_share := some (1/2),
          search_rank_lost_impression_share := some 0,
          search_budget_lost_impression_share := some 0 } } ]

/-- Witness for C2 at two concrete rows: the summed cost is positive there, so
the `roas` hypothesis is discharged concretely. -/
theorem C2_comparison_totals_witness :
    (getCampaignComparison_normalize "LAST_30_DAYS" "CONVERSIONS"
        demoComparisonRows).totals.cost
      = ((getCampaignComparison_normalize "LAST_30_DAYS" "CONVERSIONS"
          demoComparisonRows).campaigns.map (fun c => c.metrics.cost)).sum
    ∧ (getCampaignComparison_normalize "LAST_30_DAYS" "CONVERSIONS"
        demoComparisonRows).totals.roas
      = (getCampaignComparison_normalize "LAST_30_DAYS" "CONVERSIONS"
          demoComparisonRows).totals.revenue
        / (getCampaignComparison_normalize "LAST_30_DAYS" "CONVERSIONS"
          demoComparisonRows).totals.cost := by
  have h := C2_comparison_totals "LAST_30_DAYS" "CONVERSIONS" demoComparisonRows
  refine ⟨h.1, h.2.2.2.2.2.1 ?_⟩
  norm_num [getCampaignComparison_normalize, getCampaignComparison_totals,
    comparisonCampaignOfRow, demoComparisonRows, totalsStep, microsToNumber, orZero]

/-! ## Top/bottom N query construction
(src/tools/ad-groups.ts `getTopBottomKeywords`,
src/tools/shopping.ts `getTopBottomProducts`) -/

/-- The shared date-range enum of `getTopBottomKeywordsSchema` and
`getTopBottomProductsSchema` (identical member lists in both files). -/
inductive AnalysisDateRange
  | TODAY | YESTERDAY | LAST_7_DAYS | LAST_30_DAYS | THIS_MONTH | LAST_MONTH
  deriving DecidableEq, Repr

/-- The token interpolated into `DURING ${args.dateRange}`. -/
def AnalysisDateRange.token : AnalysisDateRange → String
  | .TODAY => "TODAY"
  | .YESTERDAY => "YESTERDAY"
  | .LAST_7_DAYS => "LAST_7_DAYS"
  | .LAST_30_DAYS => "LAST_30_DAYS"
  | .THIS_MONTH => "THIS_MONTH"
  | .LAST_MONTH => "LAST_MONTH"

/-- `metric` enum of `getTopBottomKeywordsSchema` (src/tools/ad-groups.ts). -/
inductive KwMetric
  | COST | CLICKS | CONVERSIONS | CTR | CONVERSION_RATE | CPC | QUALITY_SCORE
  deriving DecidableEq, Repr

/-- The `orderByField` chosen by the `switch (args.metric)` of
`getTopBottomKeywords` (src/tools/ad-groups.ts lines 417-445); `COST` keeps
the initial value `metrics.cost_micros`. -/
def kwOrderByField : KwMetric → String
  | .COST => "metrics.cost_micros"
  | .CLICKS => "metrics.clicks"
  | .CONVERSIONS => "metrics.conversions"
  | .CTR => "metrics.ctr"
  | .CONVERSION_RATE => "metrics.conversion_rate"
  | .CPC => "metrics.average_cpc"
  | .QUALITY_SCORE => "ad_group_criterion.quality_info.quality_score"

/-- Validated arguments of `get_top_bottom_keywords`
(`getTopBottomKeywordsSchema`, src/tools/ad-groups.ts). -/
structure TopBottomKeywordsArgs where
  metric : KwMetric
  dateRange : AnalysisDateRange
  topCount : ℕ
  bottomCount : ℕ
  campaignId : Option String
  adGroupId : Option String
  includeNegative : Bool
  deriving Repr

/-- The SELECT/FROM template literal of `getTopBottomKeywords`
(src/tools/ad-groups.ts lines 447-466). -/
def keywordSelectClause : String :=
  "\n      SELECT \n        ad_group_criterion.keyword.text,\n        ad_group_criterion.keyword.match_type,\n        ad_group_criterion.status,\n        ad_group_criterion.negative,\n        ad_group_criterion.quality_info.quality_score,\n        ad_group.name,\n        campaign.name,\n        metrics.clicks,\n        metrics.impressions,\n        metrics.cost_micros,\n        metrics.conversions,\n        metrics.conversions_value,\n        metrics.ctr,\n        metrics.average_cpc,\n        metrics.conversion_rate,\n        metrics.cost_per_conversion\n      FROM keyword_view\n    "

/-- The `conditions` array pushed by `getTopBottomKeywords`
(src/tools/ad-groups.ts lines 468-482), in push order. -/
def getTopBottomKeywords_conditions (a : TopBottomKeywordsArgs) : List String :=
  (match a.campaignId with
    | some cid => ["campaign.id = " ++ cid]
    | none => []) ++
  (match a.adGroupId with
    | some gid => ["ad_group.id = " ++ gid]
    | none => []) ++
  (if a.includeNegative then [] else ["ad_group_criterion.negative = false"]) ++
  ["ad_group_criterion.status != 'REMOVED'"]

/-- `baseQuery` of `getTopBottomKeywords` after the WHERE clause and the
date-range clause are appended (src/tools/ad-groups.ts lines 484-488). -/
def getTopBottomKeywords_baseQuery (a : TopBottomKeywordsArgs) : String :=
  let conds := getTopBottomKeywords_conditions a
  let q := if conds.length > 0
    then keywordSelectClause ++ " WHERE " ++ " AND ".intercalate conds
    else keywordSelectClause
  q ++ " DURING " ++ a.dateRange.token

/-- `topQuery` of `getTopBottomKeywords` (src/tools/ad-groups.ts line 491). -/
def getTopBottomKeywords_topQuery (a : TopBottomKeywordsArgs) : String :=
  getTopBottomKeywords_baseQuery a
    ++ " ORDER BY " ++ kwOrderByField a.metric ++ " DESC LIMIT " ++ toString a.topCount

/-- `bottomQuery` of `getTopBottomKeywords` (src/tools/ad-groups.ts lines
495-496): the zero-value exclusion is skipped exactly for `QUALITY_SCORE`. -/
def getTopBottomKeywords_bottomQuery (a : TopBottomKeywordsArgs) : String :=
  let bottomCondition :=
    if a.metric = KwMetric.QUALITY_SCORE then ""
    else " AND " ++ kwOrderByField a.metric ++ " > 0"
  getTopBottomKeywords_baseQuery a ++ bottomCondition
    ++ " ORDER BY " ++ kwOrderByField a.metric ++ " ASC LIMIT " ++ toString a.bottomCount

/-- `metric` enum of `getTopBottomProductsSchema` (src/tools/shopping.ts);
it has no quality-score member. -/
inductive ProductMetric
  | COST | CLICKS | CONVERSIONS | REVENUE | ROAS | CTR | CONVERSION_RATE
  deriving DecidableEq, Repr

/-- The `orderByField` chosen by the `switch (args.metric)` of
`getTopBottomProducts` (src/tools/shopping.ts lines 227-255). -/
def productOrderByField : ProductMetric → String
  | .COST => "metrics.cost_micros"
  | .CLICKS => "metrics.clicks"
  | .CONVERSIONS => "metrics.conversions"
  | .REVENUE => "metrics.conversions_value"
  | .ROAS => "metrics.conversions_value / NULLIF(metrics.cost_micros, 0)"
  | .CTR => "metrics.ctr"
  | .CONVERSION_RATE => "metrics.conversion_rate"

/-- Validated arguments of `get_top_bottom_products`
(`getTopBottomProductsSchema`, src/tools/shopping.ts). -/
structure TopBottomProductsArgs where
  metric : ProductMetric
  dateRange : AnalysisDateRange
  topCount : ℕ
  bottomCount : ℕ
  campaignId : Option String
  deriving Repr

/-- The SELECT/FROM template literal of `getTopBottomProducts`
(src/tools/shopping.ts lines 257-271). -/
def productSelectClause : String :=
  "\n      SELECT \n        segments.product_item_id,\n        segments.product_title,\n        segments.product_brand,\n        campaign.name,\n        metrics.clicks,\n        metrics.impressions,\n        metrics.cost_micros,\n        metrics.conversions,\n        metrics.conversions_value,\n        metrics.ctr,\n        metrics.conversion_rate\n      FROM shopping_performance_view\n    "

/-- `baseQuery` of `getTopBottomProducts` after the optional campaign filter
and the date-range clause are appended (src/tools/shopping.ts lines 273-277). -/
def getTopBottomProducts_baseQuery (a : TopBottomProductsArgs) : String :=
  let q := match a.campaignId with
    | some cid => productSelectClause ++ " WHERE campaign.id = " ++ cid
    | none => productSelectClause
  q ++ " DURING " ++ a.dateRange.token

/-- `topQuery` of `getTopBottomProducts` (src/tools/shopping.ts line 280). -/
def getTopBottomProducts_topQuery (a : TopBottomProductsArgs) : String :=
  getTopBottomProducts_baseQuery a
    ++ " ORDER BY " ++ productOrderByField a.metric ++ " DESC LIMIT " ++ toString a.topCount

/-- `bottomQuery` of `getTopBottomProducts` (src/tools/shopping.ts line 284):
the zero-value exclusion is appended unconditionally. -/
def getTopBottomProducts_bottomQuery (a : TopBottomProductsArgs) : String :=
  getTopBottomProducts_baseQuery a ++ " AND " ++ productOrderByField a.metric ++ " > 0"
    ++ " ORDER BY " ++ productOrderByField a.metric ++ " ASC LIMIT " ++ toString a.bottomCount

/-- C3: for both top/bottom tools the two queries extend the same base clause;
the top query orders by the chosen metric's physical field descending with
`LIMIT topCount`, the bottom query orders ascending with `LIMIT bottomCount`
and carries the zero-value exclusion on that field, except that for
`QUALITY_SCORE` (keywords only) no exclusion is added. -/
theorem C3_top_bottom_queries :
    (∀ a : TopBottomKeywordsArgs,
      getTopBottomKeywords_topQuery a
        = getTopBottomKeywords_baseQuery a
          ++ " ORDER BY " ++ kwOrderByField a.metric
          ++ " DESC LIMIT " ++ toString a.topCount
      ∧ (a.metric ≠ KwMetric.QUALITY_SCORE →
          getTopBottomKeywords_bottomQuery a
            = getTopBottomKeywords_baseQuery a
              ++ (" AND " ++ kwOrderByField a.metric ++ " > 0")
              ++ " ORDER BY " ++ kwOrderByField a.metric
              ++ " ASC LIMIT " ++ toString a.bottomCount)
      ∧ (a.metric = KwMetric.QUALITY_SCORE →
          getTopBottomKeywords_bottomQuery a
            = getTopBottomKeywords_baseQuery a
              ++ " ORDER BY " ++ kwOrderByField a.metric
              ++ " ASC LIMIT " ++ toString a.bottomCount))
    ∧ (∀ a : TopBottomProductsArgs,
      getTopBottomProducts_topQuery a
        = getTopBottomProducts_baseQuery a
          ++ " ORDER BY " ++ productOrderByField a.metric
          ++ " DESC LIMIT " ++ toString a.topCount
      ∧ getTopBottomProducts_bottomQuery a
        = getTopBottomProducts_baseQuery a
          ++ (" AND " ++ productOrderByField a.metric ++ " > 0")
          ++ " ORDER BY " ++ productOrderByField a.metric
          ++ " ASC LIMIT " ++ toString a.bottomCount) := by
  constructor
  · intro a
    refine ⟨rfl, ?_, ?_⟩
    · intro hne
      simp only [getTopBottomKeywords_bottomQuery, if_neg hne]
    · intro heq
      simp only [getTopBottomKeywords_bottomQuery, if_pos heq]
      simp
  · intro a
    exact ⟨rfl, by simp [getTopBottomProducts_bottomQuery, String.append_assoc]⟩

/-- Witness for C3 at concrete arguments: one keywords call ranking by `COST`
(exclusion present), one ranking by `QUALITY_SCORE` (no exclusion), and one
products call ranking by `CLICKS`. -/
theorem C3_top_bottom_queries_witness :
    (getTopBottomKeywords_bottomQuery
      { metric := .COST, dateRange := .LAST_30_DAYS, topCount := 3, bottomCount := 3,
        campaignId := none, adGroupId := none, includeNegative := false }
      = getTopBottomKeywords_baseQuery
        { metric := .COST, dateRange := .LAST_30_DAYS, topCount := 3, bottomCount := 3,
          campaignId := none, adGroupId := none, includeNegative := false }
        ++ (" AND " ++ kwOrderByField .COST ++ " > 0")
        ++ " ORDER BY " ++ kwOrderByField .COST ++ " ASC LIMIT " ++ toString 3)
    ∧ (getTopBottomKeywords_bottomQuery
      { metric := .QUALITY_SCORE, dateRange := .LAST_30_DAYS, topCount := 3, bottomCount := 3,
        campaignId := none, adGroupId := none, includeNegative := false }
      = getTopBottomKeywords_baseQuery
        { metric := .QUALITY_SCORE, dateRange := .LAST_30_DAYS, topCount := 3, bottomCount := 3,
          campaignId := none, adGroupId := none, includeNegative := false }
        ++ " ORDER BY " ++ kwOrderByField .QUALITY_SCORE ++ " ASC LIMIT " ++ toString 3)
    ∧ (getTopBottomProducts_bottomQuery
      { metric := .CLICKS, dateRange := .LAST_7_DAYS, topCount := 3, bottomCount := 3,
        campaignId := none }
      = getTopBottomProducts_baseQuery
        { metric := .CLICKS, dateRange := .LAST_7_DAYS, topCount := 3, bottomCount := 3,
          campaignId := none }
        ++ (" AND " ++ productOrderByField .CLICKS ++ " > 0")
        ++ " ORDER BY " ++ productOrderByField .CLICKS ++ " ASC LIMIT " ++ toString 3) :=
  ⟨(C3_top_bottom_queries.1 _).2.1 (by decide),
   (C3_top_bottom_queries.1 _).2.2 rfl,
   (C3_top_bottom_queries.2 _).2⟩

/-! ## Date-range selector handling
(src/tools/campaigns.ts `listCampaigns`, src/tools/performance.ts
`getSearchTermsReport`) -/

/-- The explicit custom date pair (`customDateRange` sub-schema). -/
structure CustomDateRange where
  startDate : String
  endDate : String
  deriving DecidableEq, Repr

/-- `dateRange` enum of `listCampaignsSchema` (src/tools/campaigns.ts). -/
inductive CampaignDateRange
  | TODAY | YESTERDAY | LAST_7_DAYS | LAST_14_DAYS | LAST_30_DAYS | THIS_MONTH
  | LAST_MONTH | THIS_QUARTER | LAST_QUARTER | THIS_YEAR | LAST_YEAR | ALL_TIME | CUSTOM
  deriving DecidableEq, Repr

/-- The token interpolated into `segments.date DURING ${params.dateRange}`. -/
def CampaignDateRange.token : CampaignDateRange → String
  | .TODAY => "TODAY"
  | .YESTERDAY => "YESTERDAY"
  | .LAST_7_DAYS => "LAST_7_DAYS"
  | .LAST_14_DAYS => "LAST_14_DAYS"
  | .LAST_30_DAYS => "LAST_30_DAYS"
  | .THIS_MONTH => "THIS_MONTH"
  | .LAST_MONTH => "LAST_MONTH"
  | .THIS_QUARTER => "THIS_QUARTER"
  | .LAST_QUARTER => "LAST_QUARTER"
  | .THIS_YEAR => "THIS_YEAR"
  | .LAST_YEAR => "LAST_YEAR"
  | .ALL_TIME => "ALL_TIME"
  | .CUSTOM => "CUSTOM"

/-- Validated arguments of `list_campaigns` (`listCampaignsSchema`,
src/tools/campaigns.ts): all fields optional with defaults, the custom pair
optional with no conditional requirement. -/
structure ListCampaignsParams where
  limit : ℕ
  includeRemoved : Bool
  dateRange : CampaignDateRange
  customDateRange : Option CustomDateRange
  deriving Repr

/-- The `whereConditions` array of `listCampaigns` (src/tools/campaigns.ts
lines 51-64): the removed-status filter, then the date filter.  When
`dateRange` is `CUSTOM` and `customDateRange` is supplied the `BETWEEN`
condition is pushed; for every other non-`ALL_TIME` combination — including
`CUSTOM` **without** the pair — `segments.date DURING <token>` is pushed. -/
def listCampaigns_whereConditions (p : ListCampaignsParams) : List String :=
  (if p.includeRemoved then [] else ["campaign.status != \"REMOVED\""]) ++
  (if p.dateRange = CampaignDateRange.ALL_TIME then []
   else match p.dateRange, p.customDateRange with
    | .CUSTOM, some c =>
        ["segments.date BETWEEN '" ++ c.startDate ++ "' AND '" ++ c.endDate ++ "'"]
    | dr, _ => ["segments.date DURING " ++ dr.token])

/-- The `whereClause` string of `listCampaigns` (src/tools/campaigns.ts
line 66). -/
def listCampaigns_whereClause (p : ListCampaignsParams) : String :=
  let conds := listCampaigns_whereConditions p
  if conds.length > 0 then "WHERE " ++ " AND ".intercalate conds else ""

/-- `dateRange` enum of `getSearchTermsReportSchema`
(src/tools/performance.ts). -/
inductive SearchTermsDateRange
  | TODAY | YESTERDAY | LAST_7_DAYS | LAST_30_DAYS | THIS_MONTH | LAST_MONTH | CUSTOM
  deriving DecidableEq, Repr

/-- The token interpolated into `segments.date DURING ${params.dateRange}`. -/
def SearchTermsDateRange.token : SearchTermsDateRange → String
  | .TODAY => "TODAY"
  | .YESTERDAY => "YESTERDAY"
  | .LAST_7_DAYS => "LAST_7_DAYS"
  | .LAST_30_DAYS => "LAST_30_DAYS"
  | .THIS_MONTH => "THIS_MONTH"
  | .LAST_MONTH => "LAST_MONTH"
  | .CUSTOM => "CUSTOM"

/-- Validated arguments of `get_search_terms_report`
(`getSearchTermsReportSchema`, src/tools/performance.ts): `customDateRange`
is optional and nothing ties its presence to the `CUSTOM` sentinel. -/
structure SearchTermsParams where
  campaignId : Option String
  adGroupId : Option String
  dateRange : SearchTermsDateRange
  customDateRange : Option CustomDateRange
  limit : ℕ
  minImpressions : ℕ
  deriving Repr

/-- The `dateClause` of `getSearchTermsReport` (src/tools/performance.ts
lines 309-314): `BETWEEN` only when `CUSTOM` **and** the pair is present;
otherwise — including `CUSTOM` without the pair — `DURING <token>`. -/
def getSearchTermsReport_dateClause (p : SearchTermsParams) : String :=
  match p.dateRange, p.customDateRange with
  | .CUSTOM, some c =>
      "segments.date BETWEEN '" ++ c.startDate ++ "' AND '" ++ c.endDate ++ "'"
  | dr, _ => "segments.date DURING " ++ dr.token

/-- The `whereClause` of `getSearchTermsReport` (src/tools/performance.ts
lines 316-325), with the optional id filters appended. -/
def getSearchTermsReport_whereClause (p : SearchTermsParams) : String :=
  let w := "WHERE " ++ getSearchTermsReport_dateClause p
    ++ "\n    AND metrics.impressions >= " ++ toString p.minImpressions
  let w := match p.campaignId with
    | some cid => w ++ " AND campaign.id = " ++ cid
    | none => w
  match p.adGroupId with
  | some gid => w ++ " AND ad_group.id = " ++ gid
  | none => w

/-- C4 (code behavior at the failing input): choosing the `CUSTOM` sentinel
without `customDateRange` does **not** fail — both builders are total and
proceed to construct a query whose date filter is the bogus clause
`segments.date DURING CUSTOM`, which is then handed to the external query
capability. -/
theorem C4_custom_sentinel_no_validation :
    listCampaigns_whereConditions
      { limit := 50, includeRemoved := false,
        dateRange := .CUSTOM, customDateRange := none }
      = ["campaign.status != \"REMOVED\"", "segments.date DURING CUSTOM"]
    ∧ getSearchTermsReport_whereClause
      { campaignId := none, adGroupId := none, dateRange := .CUSTOM,
        customDateRange := none, limit := 100, minImpressions := 10 }
      = "WHERE segments.date DURING CUSTOM\n    AND metrics.impressions >= 10" := by
  constructor
  · rfl
  · rfl

/-! ## Partial-update field masks
(src/tools/ad-groups.ts `updateAdGroup`, src/tools/keywords.ts
`updateKeyword`) -/

/-- `status` enum shared by `updateAdGroupSchema` and `updateKeywordSchema`. -/
inductive UpdateStatus
  | ENABLED | PAUSED | REMOVED
  deriving DecidableEq, Repr

/-- Validated arguments of `update_ad_group` (`updateAdGroupSchema`,
src/tools/ad-groups.ts): `adGroupId` required, every other field optional. -/
structure UpdateAdGroupArgs where
  adGroupId : String
  name : Option String
  status : Option UpdateStatus
  cpcBidMicros : Option ℚ
  cpmBidMicros : Option ℚ
  targetCpaMicros : Option ℚ
  targetRoas : Option ℚ
  deriving Repr

/-- The `updateObject` assembled by `updateAdGroup` (src/tools/ad-groups.ts
lines 142-176): `resource_name` always set, each optional field copied only
when the caller supplied it. -/
structure AdGroupUpdateObject where
  resource_name : String
  name : Option String
  status : Option UpdateStatus
  cpc_bid_micros : Option ℚ
  cpm_bid_micros : Option ℚ
  target_cpa_micros : Option ℚ
  target_roas : Option ℚ
  deriving Repr

/-- The `update_mask` object of the ad-group operation. -/
structure UpdateMask where
  paths : List String
  deriving DecidableEq, Repr

/-- The `adGroupOperation` of `updateAdGroup` (src/tools/ad-groups.ts
lines 178-183). -/
structure AdGroupOperation where
  update : AdGroupUpdateObject
  update_mask : UpdateMask
  deriving Repr

/-- `updateAdGroup`'s operation construction (src/tools/ad-groups.ts lines
142-183): the if-chain copies each supplied field into `updateObject` and
pushes the corresponding path onto `updateMask`, in declaration order. -/
def updateAdGroup_operation (customerId : String) (a : UpdateAdGroupArgs) : AdGroupOperation :=
  { update :=
    { resource_name := "customers/" ++ customerId ++ "/adGroups/" ++ a.adGroupId
      name := a.name
      status := a.status
      cpc_bid_micros := a.cpcBidMicros
      cpm_bid_micros := a.cpmBidMicros
      target_cpa_micros := a.targetCpaMicros
      target_roas := a.targetRoas }
    update_mask :=
    { paths :=
        (if a.name.isSome then ["name"] else []) ++
        (if a.status.isSome then ["status"] else []) ++
        (if a.cpcBidMicros.isSome then ["cpc_bid_micros"] else []) ++
        (if a.cpmBidMicros.isSome then ["cpm_bid_micros"] else []) ++
        (if a.targetCpaMicros.isSome then ["target_cpa_micros"] else []) ++
        (if a.targetRoas.isSome then ["target_roas"] else []) } }

/-- The field paths actually present in an ad-group update payload (the keys
of `updateObject` other than `resource_name`, in JS insertion order). -/
def adGroupUpdatePayloadFields (u : AdGroupUpdateObject) : List String :=
  (if u.name.isSome then ["name"] else []) ++
  (if u.status.isSome then ["status"] else []) ++
  (if u.cpc_bid_micros.isSome then ["cpc_bid_micros"] else []) ++
  (if u.cpm_bid_micros.isSome then ["cpm_bid_micros"] else []) ++
  (if u.target_cpa_micros.isSome then ["target_cpa_micros"] else []) ++
  (if u.target_roas.isSome then ["target_roas"] else [])

/-- Validated arguments of `update_keyword` (`updateKeywordSchema`,
src/tools/keywords.ts): `keywordId` and `adGroupId` required, `status` and
`cpcBidMicros` optional. -/
structure UpdateKeywordParams where
  keywordId : String
  adGroupId : String
  status : Option UpdateStatus
  cpcBidMicros : Option ℚ
  deriving Repr

/-- The update payload `updateKeyword` passes to
`customer.adGroupCriteria.update` (src/tools/keywords.ts lines 397-410):
the `updates` object holds exactly the supplied optional fields, spread next
to the criterion `resource_name`. -/
structure KeywordUpdateObject where
  resource_name : String
  status : Option UpdateStatus
  cpc_bid_micros : Option ℚ
  deriving Repr

/-- The payload construction of `updateKeyword` (src/tools/keywords.ts
lines 397-410). -/
def updateKeyword_updateObject (customerId : String) (p : UpdateKeywordParams) :
    KeywordUpdateObject :=
  { resource_name := "customers/" ++ customerId ++ "/adGroupCriteria/"
      ++ p.adGroupId ++ "~" ++ p.keywordId
    status := p.status
    cpc_bid_micros := p.cpcBidMicros }

/-- The field paths present in a keyword update payload (keys of `updates`,
in JS insertion order). -/
def keywordUpdatePayloadFields (u : KeywordUpdateObject) : List String :=
  (if u.status.isSome then ["status"] else []) ++
  (if u.cpc_bid_micros.isSome then ["cpc_bid_micros"] else [])

/-- Modelled from the spec: `updateKeyword` builds no explicit mask — the
external mutate capability (the ads-API client library, outside this
repository) derives the partial-update field mask from exactly the fields
present in the update payload. -/
def clientDerivedFieldMask (payloadFields : List String) : List String :=
  payloadFields

/-- C5: the field-mask path list always equals exactly the set of fields
present in the update payload — for `update_ad_group` the explicit
`update_mask` matches the payload keys for every argument combination, and a
`update_keyword` call supplying only `status` yields the mask `["status"]`
(in particular `cpc_bid_micros` is absent). -/
theorem C5_field_mask_matches_payload :
    (∀ (customerId : String) (a : UpdateAdGroupArgs),
      (updateAdGroup_operation customerId a).update_mask.paths
        = adGroupUpdatePayloadFields (updateAdGroup_operation customerId a).update)
    ∧ (∀ (customerId keywordId adGroupId : String) (s : UpdateStatus),
      clientDerivedFieldMask
        (keywordUpdatePayloadFields
          (updateKeyword_updateObject customerId
            { keywordId := keywordId, adGroupId := adGroupId,
              status := some s, cpcBidMicros := none }))
        = ["status"]) :=
  ⟨fun _ _ => rfl, fun _ _ _ _ => rfl⟩

/-! ## Tool dispatch (src/index.ts, `CallToolRequestSchema` handler) -/

/-- The `name` fields of the static `workingTools` registry announced by the
ListTools handler (src/index.ts lines 48-243), in declaration order. -/
def workingToolNames : List String :=
  [ "list_campaigns", "create_campaign", "update_campaign",
    "list_ad_groups", "get_ad_group", "create_ad_group", "update_ad_group",
    "list_ads", "add_keywords", "add_negative_keywords", "update_keyword",
    "get_search_terms_report" ]

/-- Outcome of one dispatch step: either a named handler is invoked (argument
validation, query/mutation building and the external call all happen inside
that handler), or the default arm throws `McpError(MethodNotFound, ...)` and
no handler — hence no external call — is reached. -/
inductive DispatchOutcome
  | invoke (handler : String)
  | methodNotFound (message : String)
  deriving DecidableEq, Repr

/-- The `switch (name)` of the CallTool request handler (src/index.ts lines
257-317), case arms in source order; the default arm is the
`MethodNotFound` error with message `Unknown tool: <name>`. -/
def dispatchToolCall (name : String) : DispatchOutcome :=
  if name = "list_campaigns" then .invoke "listCampaigns"
  else if name = "create_campaign" then .invoke "createCampaign"
  else if name = "update_campaign" then .invoke "updateCampaign"
  else if name = "add_keywords" then .invoke "addKeywords"
  else if name = "add_negative_keywords" then .invoke "addNegativeKeywords"
  else if name = "update_keyword" then .invoke "updateKeyword"
  else if name = "get_search_terms_report" then .invoke "getSearchTermsReport"
  else if name = "list_ad_groups" then .invoke "listAdGroups"
  else if name = "create_ad_group" then .invoke "createAdGroup"
  else if name = "update_ad_group" then .invoke "updateAdGroup"
  else if name = "get_ad_group" then .invoke "getAdGroup"
  else if name = "list_ads" then .invoke "listAds"
  else .methodNotFound ("Unknown tool: " ++ name)

/-- C6: a tool name outside the static registry dispatches to the
method-not-found error and invokes no handler (so no external query or mutate
call is made), while every registered name dispatches to a handler
invocation. -/
theorem C6_dispatch_registry :
    (∀ name : String, name ∉ workingToolNames →
      dispatchToolCall name = .methodNotFound ("Unknown tool: " ++ name)
      ∧ ∀ h, dispatchToolCall name ≠ .invoke h)
    ∧ (∀ name : String, name ∈ workingToolNames →
      ∃ h, dispatchToolCall name = .invoke h) := by
  constructor
  · intro name hn
    simp only [workingToolNames, List.mem_cons, List.not_mem_nil, or_false] at hn
    push_neg at hn
    obtain ⟨h1, h2, h3, h4, h5, h6, h7, h8, h9, h10, h11, h12⟩ := hn
    constructor
    · simp [dispatchToolCall, h1, h2, h3, h4, h5, h6, h7, h8, h9, h10, h11, h12]
    · intro h
      simp [dispatchToolCall, h1, h2, h3, h4, h5, h6, h7, h8, h9, h10, h11, h12]
  · intro name hn
    fin_cases hn <;> exact ⟨_, rfl⟩

/-- Witness for C6: the unregistered name `does_not_exist` yields the
method-not-found error, and the registered name `list_campaigns` yields a
handler invocation. -/
theorem C6_dispatch_registry_witness :
    dispatchToolCall "does_not_exist"
      = .methodNotFound ("Unknown tool: " ++ "does_not_exist")
    ∧ ∃ h, dispatchToolCall "list_campaigns" = .invoke h :=
  ⟨(C6_dispatch_registry.1 "does_not_exist" (by decide)).1,
   C6_dispatch_registry.2 "list_campaigns" (by decide)⟩

/-! ## Negative keywords (src/tools/keywords.ts, `addNegativeKeywords`) -/

/-- `matchType` enum of the keyword sub-schemas (src/tools/keywords.ts). -/
inductive MatchType
  | EXACT | PHRASE | BROAD
  deriving DecidableEq, Repr

/-- One entry of the `keywords` array of `addNegativeKeywordsSchema`. -/
structure NegativeKeyword where
  text : String
  matchType : MatchType
  deriving DecidableEq, Repr

/-- Validated arguments of `add_negative_keywords`
(`addNegativeKeywordsSchema`, src/tools/keywords.ts): both scope ids
optional, `keywords` required. -/
structure AddNegativeKeywordsParams where
  campaignId : Option String
  adGroupId : Option String
  keywords : List NegativeKeyword
  deriving Repr

/-- The `create` payload of one ad-group-level negative criterion operation
(src/tools/keywords.ts lines 353-363). -/
structure AdGroupNegativeCreate where
  ad_group : String
  status : String
  negative : Bool
  keyword : NegativeKeyword
  deriving DecidableEq, Repr

/-- The `create` payload of one campaign-level negative criterion operation
(src/tools/keywords.ts lines 373-382); it has no `status` field. -/
structure CampaignNegativeCreate where
  campaign : String
  negative : Bool
  keyword : NegativeKeyword
  deriving DecidableEq, Repr

/-- One call to the external mutate capability made by
`addNegativeKeywords`: either `customer.adGroupCriteria.create` or
`customer.campaignCriteria.create`. -/
inductive CriteriaMutateCall
  | adGroupCriteriaCreate (operations : List AdGroupNegativeCreate)
  | campaignCriteriaCreate (operations : List CampaignNegativeCreate)
  deriving DecidableEq, Repr

/-- The success payload of `addNegativeKeywords`; `addedKeywords` is the
length of the mutate result list, which carries one result per submitted
operation. -/
structure AddNegativeKeywordsResult where
  success : Bool
  level : String
  addedKeywords : ℕ
  deriving DecidableEq, Repr

/-- `addNegativeKeywords` (src/tools/keywords.ts lines 345-392): the guard
throws when neither scope id is supplied; the `if (params.adGroupId)` branch
is tried first, the campaign branch only when `adGroupId` is absent; the
returned pair carries the result object and the mutate calls issued (none on
the error path).  The final `none`/`none` arm is unreachable under the guard
and mirrors the implicit `undefined` return of the source. -/
def addNegativeKeywords (customerId : String) (p : AddNegativeKeywordsParams) :
    Except String (Option AddNegativeKeywordsResult × List CriteriaMutateCall) :=
  if p.campaignId = none ∧ p.adGroupId = none then
    Except.error "Either campaignId or adGroupId must be provided"
  else
    match p.adGroupId with
    | some adGroupId =>
      let operations := p.keywords.map (fun k =>
        ({ ad_group := "customers/" ++ customerId ++ "/adGroups/" ++ adGroupId
           status := "ENABLED"
           negative := true
           keyword := k } : AdGroupNegativeCreate))
      Except.ok
        (some { success := true, level := "ad_group", addedKeywords := operations.length },
         [CriteriaMutateCall.adGroupCriteriaCreate operations])
    | none =>
      match p.campaignId with
      | some campaignId =>
        let operations := p.keywords.map (fun k =>
          ({ campaign := "customers/" ++ customerId ++ "/campaigns/" ++ campaignId
             negative := true
             keyword := k } : CampaignNegativeCreate))
        Except.ok
          (some { success := true, level := "campaign", addedKeywords := operations.length },
           [CriteriaMutateCall.campaignCriteriaCreate operations])
      | none => Except.ok (none, [])

/-- C7: with neither `campaignId` nor `adGroupId` supplied,
`addNegativeKeywords` fails with the guard's error before any mutate call is
issued, whatever the keyword list is. -/
theorem C7_neither_scope_errors (customerId : String) (p : AddNegativeKeywordsParams)
    (hc : p.campaignId = none) (hg : p.adGroupId = none) :
    addNegativeKeywords customerId p
      = Except.error "Either campaignId or adGroupId must be provided" := by
  simp [addNegativeKeywords, hc, hg]

/-- Witness for C7: a call carrying only a keyword list errors out. -/
theorem C7_neither_scope_errors_witness :
    addNegativeKeywords "123"
        { campaignId := none, adGroupId := none,
          keywords := [{ text := "free", matchType := .BROAD }] }
      = Except.error "Either campaignId or adGroupId must be provided" :=
  C7_neither_scope_errors "123" _ rfl rfl

/-- C10: whenever `adGroupId` is supplied — in particular when `campaignId`
is supplied too — the ad-group branch wins: the result level is `ad_group`
and the single mutate call is `adGroupCriteria.create`; no campaign-level
criterion is created. -/
theorem C10_ad_group_precedence (customerId : String) (p : AddNegativeKeywordsParams)
    (adGroupId : String) (hg : p.adGroupId = some adGroupId) :
    addNegativeKeywords customerId p
      = Except.ok
        (some { success := true, level := "ad_group", addedKeywords := p.keywords.length },
         [CriteriaMutateCall.adGroupCriteriaCreate
           (p.keywords.map (fun k =>
             ({ ad_group := "customers/" ++ customerId ++ "/adGroups/" ++ adGroupId
                status := "ENABLED"
                negative := true
                keyword := k } : AdGroupNegativeCreate)))]) := by
  obtain ⟨c, g, ks⟩ := p
  simp only at hg
  subst hg
  simp [addNegativeKeywords]

/-- Witness for C10: both ids supplied, keywords land at the ad-group level
only. -/
theorem C10_ad_group_precedence_witness :
    addNegativeKeywords "123"
        { campaignId := some "77", adGroupId := some "88",
          keywords := [{ text := "free", matchType := .EXACT }] }
      = Except.ok
        (some { success := true, level := "ad_group", addedKeywords := 1 },
         [CriteriaMutateCall.adGroupCriteriaCreate
           [{ ad_group := "customers/" ++ "123" ++ "/adGroups/" ++ "88",
              status := "ENABLED", negative := true,
              keyword := { text := "free", matchType := .EXACT } }]]) :=
  C10_ad_group_precedence "123" _ "88" rfl

/-! ## Not-found error for single-resource lookup
(src/tools/ad-groups.ts, `getAdGroup`) -/

/-- The `ad_group` sub-object of a `getAdGroup` row (fields the normalizer
reads). -/
structure AdGroupRawFields where
  id : Option String
  name : Option String
  status : Option String
  campaign : Option String
  cpc_bid_micros : Option ℚ
  cpm_bid_micros : Option ℚ
  target_cpa_micros : Option ℚ
  target_roas : Option ℚ
  effective_target_cpa_micros : Option ℚ
  effective_target_roas : Option ℚ
  deriving Repr

/-- The `campaign` sub-object of a `getAdGroup` row. -/
structure AdGroupRowCampaign where
  name : Option String
  id : Option String
  deriving Repr

/-- One raw row of the `getAdGroup` query response. -/
structure AdGroupRow where
  ad_group : Option AdGroupRawFields
  campaign : Option AdGroupRowCampaign
  deriving Repr

/-- The normalized result shape of `get_ad_group`
(src/tools/ad-groups.ts lines 229-241). -/
structure AdGroupResult where
  id : Option String
  name : Option String
  status : Option String
  campaignId : Option String
  campaignName : Option String
  cpcBidMicros : Option ℚ
  cpmBidMicros : Option ℚ
  targetCpaMicros : Option ℚ
  targetRoas : Option ℚ
  effectiveTargetCpaMicros : Option ℚ
  effectiveTargetRoas : Option ℚ
  deriving Repr

/-- `getAdGroup` applied to the rows the external query returned
(src/tools/ad-groups.ts lines 199-245): zero rows throws
`'Ad group not found'` inside the `try`, and the surrounding `catch` rewraps
every error with the tool prefix `Failed to get ad group: `; otherwise the
first row is normalized. -/
def getAdGroup (rows : List AdGroupRow) : Except String AdGroupResult :=
  let inner : Except String AdGroupResult :=
    match rows with
    | [] => Except.error "Ad group not found"
    | row :: _ =>
      Except.ok
        { id := row.ad_group.bind (·.id)
          name := row.ad_group.bind (·.name)
          status := row.ad_group.bind (·.status)
          campaignId := row.campaign.bind (·.id)
          campaignName := row.campaign.bind (·.name)
          cpcBidMicros := row.ad_group.bind (·.cpc_bid_micros)
          cpmBidMicros := row.ad_group.bind (·.cpm_bid_micros)
          targetCpaMicros := row.ad_group.bind (·.target_cpa_micros)
          targetRoas := row.ad_group.bind (·.target_roas)
          effectiveTargetCpaMicros := row.ad_group.bind (·.effective_target_cpa_micros)
          effectiveTargetRoas := row.ad_group.bind (·.effective_target_roas) }
  match inner with
  | Except.error msg => Except.error ("Failed to get ad group: " ++ msg)
  | Except.ok r => Except.ok r

/-- C8: a `get_ad_group` call whose id yields zero rows produces the wrapped
not-found error and never a success payload. -/
theorem C8_zero_rows_not_found :
    getAdGroup [] = Except.error "Failed to get ad group: Ad group not found"
    ∧ ∀ r : AdGroupResult, getAdGroup [] ≠ Except.ok r := by
  refine ⟨rfl, ?_⟩
  intro r h
  simp [getAdGroup] at h

/-! ## Dispatcher error rewrapping (src/index.ts lines 318-325) -/

/-- The two `ErrorCode` members the CallTool handler uses. -/
inductive McpErrorCode
  | MethodNotFound | InternalError
  deriving DecidableEq, Repr

/-- A value thrown inside the CallTool handler: an `McpError` (the recognized
protocol error kind), a plain JavaScript `Error`, or a non-`Error` thrown
value. -/
inductive ThrownError
  | mcpError (code : McpErrorCode) (message : String)
  | jsError (message : String)
  | nonErrorValue
  deriving DecidableEq, Repr

/-- The `catch` block of the CallTool handler (src/index.ts lines 318-325):
an `McpError` is rethrown unchanged; anything else is rewrapped as
`McpError(InternalError, 'Tool execution failed: <message>')`, with
`'Unknown error occurred'` standing in for a non-`Error` value. -/
def rewrapHandlerError : ThrownError → ThrownError
  | .mcpError c m => .mcpError c m
  | .jsError m => .mcpError .InternalError ("Tool execution failed: " ++ m)
  | .nonErrorValue =>
      .mcpError .InternalError ("Tool execution failed: " ++ "Unknown error occurred")

/-- C9: recognized `McpError`s cross the catch block unchanged; every other
fault is rewrapped as an internal-error `McpError` whose message contains the
original message; and nothing other than an `McpError` ever leaves the
handler. -/
theorem C9_error_rewrapping :
    (∀ (c : McpErrorCode) (m : String),
      rewrapHandlerError (.mcpError c m) = .mcpError c m)
    ∧ (∀ m : String, ∃ l r : String,
      rewrapHandlerError (.jsError m) = .mcpError .InternalError (l ++ m ++ r))
    ∧ (∀ e : ThrownError, ∃ (c : McpErrorCode) (m : String),
      rewrapHandlerError e = .mcpError c m) := by
  refine ⟨fun _ _ => rfl, ?_, ?_⟩
  · intro m
    refine ⟨"Tool execution failed: ", "", ?_⟩
    simp [rewrapHandlerError]
  · intro e
    cases e <;> exact ⟨_, _, rfl⟩

end GoogleAdsMcp
